import Mathlib

/-!
Shallow embedding of the redirect-and-analytics core of the logmi-app
repository (Django backend, apps app_tinyurl and app_linktree), together
with theorems settling the specification claims about it.

Conventions of the embedding:
* Database tables become lists of rows; ORM lookups become List.find?,
  List.filter and List.countP over those lists.
* Timestamps are natural numbers (seconds); TruncDate is division by 86400.
* Randomness (random.choice) is an explicit choice function pick : Nat → Nat,
  reduced modulo the alphabet size.
* The outbound geolocation HTTP call is an explicit function
  fetch : String → GeoResult; a raised exception (timeout, network error,
  malformed JSON) is a constructor of GeoResult.
* The user-agent parser is an explicit function parse : String → UAParse;
  a parser exception is the UAParse.failure constructor.
* Functions that create database rows return the list of rows created, so
  that click-event persistence is observable in the result.
-/

namespace Logmi

/-! ## String helpers

Python string operations, implemented by structural recursion over the
character list so that every definition evaluates by kernel reduction. -/

/-- str.lower() on ASCII text. -/
def pyLower (s : String) : String :=
  String.mk (s.toList.map Char.toLower)

/-- s.startswith(p). -/
def strStarts (s p : String) : Bool :=
  p.toList.isPrefixOf s.toList

/-- The whitespace characters str.strip() removes (the ones that can occur
in a query parameter). -/
def isPySpace (c : Char) : Bool :=
  c = ' ' ∨ c = '\t' ∨ c = '\n' ∨ c = '\r'

/-- str.strip(): drop whitespace from both ends. -/
def pyStrip (l : List Char) : List Char :=
  ((l.dropWhile isPySpace).reverse.dropWhile isPySpace).reverse

/-- The numeric value of a digit string. -/
def digitsToNat (l : List Char) : Nat :=
  l.foldl (fun n c => n * 10 + (c.toNat - 48)) 0

/-- Decidable equality for Except, used to state results about fallible
operations. -/
instance {ε α : Type} [DecidableEq ε] [DecidableEq α] :
    DecidableEq (Except ε α) := fun a b =>
  match a, b with
  | .error e, .error f =>
    if h : e = f then .isTrue (h ▸ rfl)
    else .isFalse (fun hc => h (Except.error.inj hc))
  | .error _, .ok _ => .isFalse (fun hc => Except.noConfusion hc)
  | .ok _, .error _ => .isFalse (fun hc => Except.noConfusion hc)
  | .ok x, .ok y =>
    if h : x = y then .isTrue (h ▸ rfl)
    else .isFalse (fun hc => h (Except.ok.inj hc))

/-! ## Data model (app_tinyurl/models.py, app_linktree/models.py) -/

/-- A row of the Url table (app_tinyurl/models.py, class Url). -/
structure Url where
  short_code : String
  long_url : String
  is_active : Bool
deriving Repr, DecidableEq

/-- A row of the Link table (app_linktree/models.py, class Link). -/
structure Link where
  id : String
  url : String
  is_active : Bool
deriving Repr, DecidableEq

/-- The request data the redirect views read: the qrcode query parameter
(absent or its raw string), the raw user-agent header, and the client IP
already extracted by get_client_ip. -/
structure RequestCtx where
  qrcode_param : Option String
  user_agent : String
  ip_address : String
deriving Repr, DecidableEq

/-- A click-event row as created by the redirect views (UrlStat / LinkStat),
with the parent row it references. -/
structure CreatedStat (α : Type) where
  parent : α
  via_qrcode : Bool
  device_type : String
  city : Option String
  country : Option String
  ip_address : String
  user_agent : String
deriving Repr, DecidableEq

/-! ## Device classifier (app_tinyurl/utils.py, get_device_type) -/

/-- Result of user_agents.parse: either an exception, or an object with the
three boolean properties the code reads. -/
inductive UAParse where
  | failure
  | parsed (is_mobile : Bool) (is_tablet : Bool) (is_pc : Bool)
deriving Repr, DecidableEq

/-- get_device_type (app_tinyurl/utils.py lines 65-84): empty string gives
unknown; a parser exception gives unknown; otherwise is_mobile, then
is_tablet, then is_pc are tested in that order. -/
def get_device_type (parse : String → UAParse) (user_agent_string : String) : String :=
  if user_agent_string = "" then "unknown"
  else
    match parse user_agent_string with
    | .failure => "unknown"
    | .parsed m t p =>
      if m then "mobile"
      else if t then "tablet"
      else if p then "desktop"
      else "unknown"

/-! ## Geolocation resolver (app_tinyurl/utils.py, get_location_from_ip) -/

/-- The JSON body of a geolocation response, restricted to the fields the
code reads (requested fields: status, country, city). -/
structure GeoBody where
  status : Option String
  country : Option String
  city : Option String
deriving Repr, DecidableEq

/-- Outcome of the single requests.get call: a raised exception (timeout,
connection error, or response.json() raising on a malformed body, all caught
by the same except block), or a response with a status code and, when the
body is valid JSON, its parsed body. -/
inductive GeoResult where
  | exn
  | ok (status_code : Nat) (body : Option GeoBody)
deriving Repr, DecidableEq

/-- A city-and-country pair, the dict returned by get_location_from_ip. -/
structure GeoLocation where
  city : Option String
  country : Option String
deriving Repr, DecidableEq

/-- get_location_from_ip (app_tinyurl/utils.py lines 87-118). The Bool in
the result records whether the outbound network call was issued. Empty
input and the three literal addresses short-circuit; otherwise one lookup
is made and every failure shape falls through to the none-none dict. -/
def get_location_from_ip (fetch : String → GeoResult) (ip : String) :
    GeoLocation × Bool :=
  if ip = "" ∨ ip = "127.0.0.1" ∨ ip = "localhost" ∨ ip = "::1" then
    (⟨none, none⟩, false)
  else
    match fetch ip with
    | .exn => (⟨none, none⟩, true)
    | .ok status_code body =>
      if status_code = 200 then
        match body with
        | some b =>
          if b.status = some "success" then (⟨b.city, b.country⟩, true)
          else (⟨none, none⟩, true)
        | none => (⟨none, none⟩, true)
      else (⟨none, none⟩, true)

/-- Modelled from the spec: the spec-level class of addresses that section
4.3 says must short-circuit without a network call, namely private (RFC1918)
and loopback addresses and empty input. The source has no such predicate;
this definition exists only to compare the spec wording with the code. -/
def isPrivateOrLoopbackSpec (ip : String) : Bool :=
  ip = "" || ip = "localhost" || ip = "::1" ||
  strStarts ip "127." || strStarts ip "10." || strStarts ip "192.168." ||
  ["172.16.", "172.17.", "172.18.", "172.19.", "172.20.", "172.21.",
   "172.22.", "172.23.", "172.24.", "172.25.", "172.26.", "172.27.",
   "172.28.", "172.29.", "172.30.", "172.31."].any
    (fun p => strStarts ip p)

/-! ## Identifier generator (app_tinyurl/utils.py, generate_short_code) -/

/-- string.ascii_letters ++ string.digits, in Python order. -/
def sourceChars : List Char :=
  "abcdefghijklmnopqrstuvwxyzABCDEFGHIJKLMNOPQRSTUVWXYZ0123456789".toList

/-- The generation alphabet: sourceChars with the ambiguous characters
O, 0, l, 1, I removed (utils.py lines 22-23). -/
def shortCodeAlphabet : List Char :=
  sourceChars.filter (fun c => ¬ ("O0l1I".toList.contains c))

/-- generate_short_code (utils.py lines 16-24): length independent draws
from shortCodeAlphabet; pick i supplies the random index of draw i, taken
modulo the alphabet size as random.choice does by construction. -/
def generate_short_code (pick : Nat → Nat) (length : Nat) : String :=
  String.mk ((List.range length).map
    (fun i => shortCodeAlphabet.getD (pick i % shortCodeAlphabet.length) 'a'))

/-! ## Short-code allocation and validation (app_tinyurl/serializers.py) -/

/-- The attempt loop inside _ensure_short_code: attempt index i, remaining
budget n; candidate gen i is kept when the uniqueness check
Url.objects.filter(short_code=code).exists() is false. -/
def alloc_from (gen : Nat → String) (taken : String → Bool) :
    Nat → Nat → Option String
  | _, 0 => none
  | i, n + 1 =>
    let code := gen i
    if taken code then alloc_from gen taken (i + 1) n else some code

/-- UrlSerializer._ensure_short_code (serializers.py lines 59-72): when the
provided short_code is absent or empty (Python falsy), run the 10-attempt
allocation loop; exhaustion raises a ValidationError with this message. -/
def ensure_short_code (gen : Nat → String) (taken : String → Bool)
    (provided : Option String) : Except String String :=
  if provided.getD "" ≠ "" then .ok (provided.getD "")
  else
    match alloc_from gen taken 0 10 with
    | some code => .ok code
    | none => .error "Could not generate unique short code. Please try again."

/-- The default TINYURL_RESERVED_PATHS (views.py lines 187-189,
serializers.py lines 87-89). -/
def defaultReservedPaths : List String :=
  ["admin", "api", "app", "static", "media"]

/-- The case-insensitive reserved-path membership test,
short_code.lower() in [p.lower() for p in reserved_paths]. -/
def isReserved (reserved_paths : List String) (code : String) : Bool :=
  (reserved_paths.map pyLower).contains (pyLower code)

/-- UrlSerializer.validate_short_code (serializers.py lines 85-94): a
provided short_code matching a reserved path raises a ValidationError. -/
def validate_short_code (reserved_paths : List String) (value : String) :
    Except Unit String :=
  if isReserved reserved_paths value then .error () else .ok value

/-! ## Redirect resolvers (app_tinyurl/views.py redirect_view,
app_linktree/views.py link_redirect) -/

/-- Terminal outcome of a redirect request: an HTTP 302 to a destination,
or the rendered 404 page. -/
inductive RedirectOutcome where
  | Redirected (destination : String)
  | NotFound
deriving Repr, DecidableEq

/-- Url.objects.get(short_code=short_code, is_active=True); DoesNotExist
becomes none. -/
def findActiveUrl (urls : List Url) (code : String) : Option Url :=
  urls.find? (fun u => u.short_code == code && u.is_active)

/-- Link.objects.get(id=link_id, is_active=True); DoesNotExist and any
other exception (for instance a malformed UUID) both become none, matching
the except clause of link_redirect. -/
def findActiveLink (links : List Link) (link_id : String) : Option Link :=
  links.find? (fun l => l.id == link_id && l.is_active)

/-- request.GET.get(qrcode, empty).lower() == the literal true. -/
def qrParamTrue (req : RequestCtx) : Bool :=
  pyLower (req.qrcode_param.getD "") == "true"

/-- The click-event row built by both redirect views before the redirect:
classify the device, resolve the location, copy the raw metadata. -/
def recordStat {α : Type} (parse : String → UAParse) (fetch : String → GeoResult)
    (parent : α) (req : RequestCtx) : CreatedStat α :=
  let location := (get_location_from_ip fetch req.ip_address).1
  { parent := parent
    via_qrcode := qrParamTrue req
    device_type := get_device_type parse req.user_agent
    city := location.city
    country := location.country
    ip_address := req.ip_address
    user_agent := req.user_agent }

/-- redirect_view (app_tinyurl/views.py lines 176-217): reserved-path check
before any lookup, then active-only lookup, then one UrlStat row, then the
302 to long_url. Second component: the rows created. -/
def redirect_view (parse : String → UAParse) (fetch : String → GeoResult)
    (reserved_paths : List String) (urls : List Url)
    (short_code : String) (req : RequestCtx) :
    RedirectOutcome × List (CreatedStat Url) :=
  if isReserved reserved_paths short_code then (.NotFound, [])
  else
    match findActiveUrl urls short_code with
    | none => (.NotFound, [])
    | some url => (.Redirected url.long_url, [recordStat parse fetch url req])

/-- link_redirect (app_linktree/views.py lines 279-318): active-only lookup
by id (no reserved-path check), one LinkStat row, 302 to url. -/
def link_redirect (parse : String → UAParse) (fetch : String → GeoResult)
    (links : List Link) (link_id : String) (req : RequestCtx) :
    RedirectOutcome × List (CreatedStat Link) :=
  match findActiveLink links link_id with
  | none => (.NotFound, [])
  | some link => (.Redirected link.url, [recordStat parse fetch link req])

/-! ## Stats aggregation (UrlViewSet.stats / LinkViewSet.stats) -/

/-- A persisted click-event row as read by the aggregation queries:
its timestamp and the grouped columns. -/
structure StatRow where
  created_at : Nat
  via_qrcode : Bool
  device_type : String
  country : Option String
deriving Repr, DecidableEq

/-- TruncDate: the calendar day of a timestamp. -/
def truncDate (t : Nat) : Nat := t / 86400

/-- Distinct values of a list in order of first occurrence (the groups of a
values().annotate(Count) query). -/
def firstOccurrences {α : Type} [BEq α] (l : List α) : List α :=
  l.foldl (fun acc a => if acc.contains a then acc else acc ++ [a]) []

/-- Group-by-and-count: each distinct key with the number of rows
carrying it. -/
def groupCounts {α : Type} [BEq α] (keys : List α) : List (α × Nat) :=
  (firstOccurrences keys).map (fun k => (k, keys.countP (fun x => x == k)))

/-- order_by(descending count): a stable sort on the count, largest
first. -/
def sortByCountDesc {α : Type} (l : List (α × Nat)) : List (α × Nat) :=
  l.insertionSort (fun a b => b.2 ≤ a.2)

/-- The aggregate dict built by the per-link stats actions
(app_tinyurl/views.py lines 62-98, app_linktree/views.py lines 79-115);
clicks_by_device is the group-by dict as a list of pairs, clicks_by_country
a list of country-count pairs, clicks_by_day a list of day-count pairs. -/
structure AggregateStats where
  total_clicks : Nat
  qrcode_clicks : Nat
  direct_clicks : Nat
  clicks_by_device : List (String × Nat)
  clicks_by_country : List (String × Nat)
  clicks_by_day : List (Nat × Nat)
deriving Repr, DecidableEq

/-- The stats action body shared by both variants: filter to
created_at >= start_date, then count, count via_qrcode, subtract, group by
device, group non-null countries ordered by descending count limited to 10,
group by day ordered by day ascending. -/
def stats_aggregate (stats : List StatRow) (start_date : Nat) : AggregateStats :=
  let w := stats.filter (fun s => decide (start_date ≤ s.created_at))
  let total_clicks := w.length
  let qrcode_clicks := w.countP (fun s => s.via_qrcode)
  { total_clicks := total_clicks
    qrcode_clicks := qrcode_clicks
    direct_clicks := total_clicks - qrcode_clicks
    clicks_by_device := groupCounts (w.map (fun s => s.device_type))
    clicks_by_country :=
      (sortByCountDesc (groupCounts
        ((w.filter (fun s => ¬ s.country.isNone)).map
          (fun s => s.country.getD "")))).take 10
    clicks_by_day :=
      (groupCounts (w.map (fun s => truncDate s.created_at))).insertionSort
        (fun a b => a.1 ≤ b.1) }

/-! ## Dashboard top-N (dashboard_stats of both apps) -/

/-- A click-event row as seen by the dashboard top-N queries: the
identifier of its parent row and its timestamp. -/
structure OwnedStat where
  owner : String
  created_at : Nat
deriving Repr, DecidableEq

/-- top_urls (app_tinyurl/views.py lines 128-136): annotate each Url with
Count of its stats restricted by the filter argument to the window, keep
strictly positive counts, order by descending count, take 10. -/
def top_urls (urls : List Url) (stats : List OwnedStat) (start_date : Nat) :
    List (Url × Nat) :=
  (((urls.map (fun u =>
      (u, stats.countP (fun s =>
        s.owner == u.short_code && decide (start_date ≤ s.created_at))))).filter
    (fun p => decide (0 < p.2))).insertionSort
    (fun a b => b.2 ≤ a.2)).take 10

/-- top_links (app_linktree/views.py lines 145-151): annotate each Link
with Count of ALL its stats (no window filter on the Count), then filter to
links having at least one stat in the window, order by descending count,
take 10. -/
def top_links (links : List Link) (stats : List OwnedStat) (start_date : Nat) :
    List (Link × Nat) :=
  (((links.map (fun l =>
      (l, stats.countP (fun s => s.owner == l.id)))).filter
    (fun p => stats.any (fun s =>
      s.owner == p.1.id && decide (start_date ≤ s.created_at)))).insertionSort
    (fun a b => b.2 ≤ a.2)).take 10

/-- The windowed click count of one link: what the specification says
top_links should rank by. -/
def windowedCount (stats : List OwnedStat) (owner : String) (start_date : Nat) :
    Nat :=
  stats.countP (fun s => s.owner == owner && decide (start_date ≤ s.created_at))

/-! ## The days query parameter (views.py, int(request.query_params.get)) -/

/-- Python int() applied to a string: strip surrounding whitespace, accept
an optional sign followed by at least one digit; anything else raises
ValueError (none). -/
def pyIntOfString (s : String) : Option Int :=
  match pyStrip s.toList with
  | [] => none
  | c :: rest =>
    let signed : Int × List Char :=
      if c = '-' then (-1, rest)
      else if c = '+' then (1, rest)
      else (1, c :: rest)
    if signed.2 ≠ [] ∧ signed.2.all (fun d => d.isDigit) then
      some (signed.1 * (digitsToNat signed.2 : Nat))
    else none

/-- int(request.query_params.get(days, 30)): an absent parameter yields the
default 30; a present parameter is parsed by int(), and a ValueError
propagates out of the view (error). -/
def get_days (param : Option String) : Except Unit Int :=
  match param with
  | none => .ok 30
  | some s =>
    match pyIntOfString s with
    | some n => .ok n
    | none => .error ()

/-- start_date = timezone.now() - timedelta(days=days), in seconds. -/
def start_date (now : Int) (days : Int) : Int := now - days * 86400

/-! ## Concrete fixtures used by witnesses and counterexamples -/

/-- A user-agent parser used by witnesses: always raises. -/
def wParse : String → UAParse := fun _ => .failure

/-- A geolocation fetcher used by witnesses: always raises. -/
def wFetch : String → GeoResult := fun _ => .exn

/-- A stored short link used by witnesses. -/
def wUrl : Url :=
  { short_code := "abc", long_url := "https://example.com/page", is_active := true }

/-- A stored link-in-bio entry used by witnesses. -/
def wLink : Link :=
  { id := "11111111-2222", url := "https://example.com/bio", is_active := true }

/-- A request context used by witnesses. -/
def wReq : RequestCtx :=
  { qrcode_param := some "TRUE", user_agent := "", ip_address := "127.0.0.1" }

/-- The worked example of specification section 8: two events on day 1
(FR mobile via QR, FR desktop direct) and one on day 2 (US mobile
direct). -/
def exampleEvents : List StatRow :=
  [ { created_at := 86400, via_qrcode := true,
      device_type := "mobile", country := some "FR" },
    { created_at := 86500, via_qrcode := false,
      device_type := "desktop", country := some "FR" },
    { created_at := 172800, via_qrcode := false,
      device_type := "mobile", country := some "US" } ]

/-- The sequence of random indices under which generate_short_code emits
the reserved word static (indices of s, t, a, t, i, c in the generation
alphabet). -/
def staticPick : Nat → Nat := fun i => [17, 18, 0, 18, 8, 2].getD i 0

/-- A link with one in-window and one out-of-window click, exhibiting the
top_links window bug. -/
def bugLink : Link :=
  { id := "L1", url := "https://example.com", is_active := true }

/-- A short link with one in-window and one out-of-window click. -/
def bugUrl : Url :=
  { short_code := "u1", long_url := "https://example.com", is_active := true }

/-- Two clicks on bugLink: timestamps 0 and 100. -/
def bugLinkStats : List OwnedStat := [⟨"L1", 0⟩, ⟨"L1", 100⟩]

/-- Two clicks on bugUrl: timestamps 0 and 100. -/
def bugUrlStats : List OwnedStat := [⟨"u1", 0⟩, ⟨"u1", 100⟩]

/-! ## Claim theorems -/

/-- C1: for a non-reserved identifier, short-code resolution returns a 302
carrying exactly the stored long_url when an active row matches, and the
single NotFound outcome when no active row matches (the absent and the
inactive case both make findActiveUrl return none, so they are the same
constructor, indistinguishable to the caller); the link-ID variant behaves
the same over its own store; an identifier whose matching rows are all
inactive is a lookup miss. -/
theorem C1_redirect_resolution
    (parse : String → UAParse) (fetch : String → GeoResult)
    (reserved_paths : List String) (urls : List Url) (links : List Link)
    (short_code lid : String) (req : RequestCtx)
    (hres : isReserved reserved_paths short_code = false) :
    ((∀ u, findActiveUrl urls short_code = some u →
        (redirect_view parse fetch reserved_paths urls short_code req).1
          = .Redirected u.long_url)
      ∧ (findActiveUrl urls short_code = none →
        (redirect_view parse fetch reserved_paths urls short_code req).1
          = .NotFound)
      ∧ ((∀ u, u ∈ urls → u.short_code = short_code → u.is_active = false) →
        (redirect_view parse fetch reserved_paths urls short_code req).1
          = .NotFound))
    ∧ ((∀ l, findActiveLink links lid = some l →
        (link_redirect parse fetch links lid req).1 = .Redirected l.url)
      ∧ (findActiveLink links lid = none →
        (link_redirect parse fetch links lid req).1 = .NotFound)) := by
  have hnone : (∀ u, u ∈ urls → u.short_code = short_code → u.is_active = false) →
      findActiveUrl urls short_code = none := by
    intro h
    apply List.find?_eq_none.mpr
    intro u hu
    by_cases hc : u.short_code = short_code
    · simp [hc, h u hu hc]
    · simp [hc]
  refine ⟨⟨fun u hu => ?_, fun hn => ?_, fun h => ?_⟩, fun l hl => ?_, fun hn => ?_⟩
  · simp [redirect_view, hres, hu]
  · simp [redirect_view, hres, hn]
  · simp [redirect_view, hres, hnone h]
  · simp [link_redirect, hl]
  · simp [link_redirect, hn]

/-- C1 witness: on a store holding one active link with code abc, the
resolver (with the reserved defaults) redirects to the stored destination. -/
theorem C1_redirect_resolution_witness :
    isReserved defaultReservedPaths "abc" = false
    ∧ (redirect_view wParse wFetch defaultReservedPaths [wUrl] "abc" wReq).1
        = .Redirected "https://example.com/page" :=
  ⟨by decide,
    (C1_redirect_resolution wParse wFetch defaultReservedPaths [wUrl] [wLink]
      "abc" "11111111-2222" wReq (by decide)).1.1 wUrl (by decide)⟩

/-- C2: a reserved identifier (case-insensitive) makes the short-code
resolver answer NotFound with no click event created, and the answer is
independent of the url store (no lookup is observable); the link-ID
variant has no reserved-path check: an active link is redirected whatever
its identifier spells. -/
theorem C2_reserved_path_check
    (parse : String → UAParse) (fetch : String → GeoResult)
    (reserved_paths : List String) (urls : List Url)
    (short_code : String) (req : RequestCtx)
    (hres : isReserved reserved_paths short_code = true) :
    (redirect_view parse fetch reserved_paths urls short_code req
      = (.NotFound, []))
    ∧ (∀ urls2, redirect_view parse fetch reserved_paths urls short_code req
        = redirect_view parse fetch reserved_paths urls2 short_code req)
    ∧ (∀ links lid req2, ∀ l, findActiveLink links lid = some l →
        (link_redirect parse fetch links lid req2).1 = .Redirected l.url) := by
  refine ⟨?_, fun urls2 => ?_, fun links lid req2 l hl => ?_⟩
  · simp [redirect_view, hres]
  · simp [redirect_view, hres]
  · simp [link_redirect, hl]

/-- C2 witness: the reserved identifier Admin resolves to NotFound with no
click event against a store that does hold an active link named Admin. -/
theorem C2_reserved_path_check_witness :
    isReserved defaultReservedPaths "Admin" = true
    ∧ redirect_view wParse wFetch defaultReservedPaths
        [{ short_code := "Admin", long_url := "https://x.example", is_active := true }]
        "Admin" wReq = (.NotFound, []) :=
  ⟨by decide,
    (C2_reserved_path_check wParse wFetch defaultReservedPaths
      [{ short_code := "Admin", long_url := "https://x.example", is_active := true }]
      "Admin" wReq (by decide)).1⟩

/-- C3: when resolution succeeds against an active link, the view creates
exactly one click-event row, referencing that link, whose via_qrcode flag
is true exactly when the qrcode query parameter lowercases to the literal
true; on a NotFound outcome no row is created. Both variants. -/
theorem C3_click_event_creation
    (parse : String → UAParse) (fetch : String → GeoResult)
    (reserved_paths : List String) (urls : List Url) (links : List Link)
    (short_code lid : String) (req : RequestCtx)
    (hres : isReserved reserved_paths short_code = false) :
    (∀ u, findActiveUrl urls short_code = some u →
      (redirect_view parse fetch reserved_paths urls short_code req).2
          = [recordStat parse fetch u req]
        ∧ (recordStat parse fetch u req).parent = u
        ∧ ((recordStat parse fetch u req).via_qrcode = true
            ↔ pyLower (req.qrcode_param.getD "") = "true"))
    ∧ ((redirect_view parse fetch reserved_paths urls short_code req).1
          = .NotFound →
        (redirect_view parse fetch reserved_paths urls short_code req).2 = [])
    ∧ (∀ l, findActiveLink links lid = some l →
      (link_redirect parse fetch links lid req).2 = [recordStat parse fetch l req]
        ∧ (recordStat parse fetch l req).parent = l
        ∧ ((recordStat parse fetch l req).via_qrcode = true
            ↔ pyLower (req.qrcode_param.getD "") = "true"))
    ∧ ((link_redirect parse fetch links lid req).1 = .NotFound →
        (link_redirect parse fetch links lid req).2 = []) := by
  refine ⟨fun u hu => ?_, fun hnf => ?_, fun l hl => ?_, fun hnf => ?_⟩
  · exact ⟨by simp [redirect_view, hres, hu], rfl,
      by simp [recordStat, qrParamTrue]⟩
  · cases hu : findActiveUrl urls short_code with
    | none => simp [redirect_view, hres, hu]
    | some u => simp [redirect_view, hres, hu] at hnf
  · exact ⟨by simp [link_redirect, hl], rfl,
      by simp [recordStat, qrParamTrue]⟩
  · cases hl : findActiveLink links lid with
    | none => simp [link_redirect, hl]
    | some l => simp [link_redirect, hl] at hnf

/-- C3 witness: the successful resolution of code abc stores exactly one
click event, and with qrcode=TRUE the stored flag is true. -/
theorem C3_click_event_creation_witness :
    isReserved defaultReservedPaths "abc" = false
    ∧ (redirect_view wParse wFetch defaultReservedPaths [wUrl] "abc" wReq).2
        = [recordStat wParse wFetch wUrl wReq] :=
  ⟨by decide,
    ((C3_click_event_creation wParse wFetch defaultReservedPaths [wUrl] [wLink]
      "abc" "11111111-2222" wReq (by decide)).1 wUrl (by decide)).1⟩

/-- C4 counterexample: on the worked example the device breakdown the code
produces holds only the categories that actually occur; the zero rows for
tablet and unknown that the claim requires are absent. -/
theorem C4_device_zero_fill_counterexample :
    (stats_aggregate exampleEvents 0).clicks_by_device
        = [("mobile", 2), ("desktop", 1)]
    ∧ ("tablet", 0) ∉ (stats_aggregate exampleEvents 0).clicks_by_device
    ∧ ("unknown", 0) ∉ (stats_aggregate exampleEvents 0).clicks_by_device := by
  decide

/-- C4 (amended): on the worked example, with a window covering both days,
the aggregator returns total 3, qr 1, direct 2, country rows FR 2 then US 1
descending by count, day rows day-1 2 then day-2 1 ascending with no
zero-event day synthesized, and a device breakdown holding exactly the
categories that occur: mobile 2 and desktop 1, absent categories omitted
rather than zero-filled. -/
theorem C4_stats_worked_example :
    stats_aggregate exampleEvents 0 =
      { total_clicks := 3
        qrcode_clicks := 1
        direct_clicks := 2
        clicks_by_device := [("mobile", 2), ("desktop", 1)]
        clicks_by_country := [("FR", 2), ("US", 1)]
        clicks_by_day := [(1, 2), (2, 1)] } := by
  decide

/-- The allocation loop returns none when every candidate in its budget is
already taken. -/
theorem alloc_from_exhausted (gen : Nat → String) (taken : String → Bool) :
    ∀ n i, (∀ j, j < n → taken (gen (i + j)) = true) →
      alloc_from gen taken i n = none := by
  intro n
  induction n with
  | zero => intro i _; rfl
  | succ m ih =>
    intro i h
    have h0 : taken (gen i) = true := by simpa using h 0 (Nat.succ_pos m)
    have hrest : ∀ j, j < m → taken (gen (i + 1 + j)) = true := by
      intro j hj
      rw [show i + 1 + j = i + (j + 1) by omega]
      exact h (j + 1) (by omega)
    simp [alloc_from, h0]
    exact ih (i + 1) hrest

/-- Every position of the generation alphabet holds an ASCII letter or
digit distinct from the five ambiguous characters. -/
theorem shortCodeAlphabet_sound :
    ∀ k, k < shortCodeAlphabet.length →
      ((shortCodeAlphabet.getD k 'a').isAlpha = true
        ∨ (shortCodeAlphabet.getD k 'a').isDigit = true)
      ∧ shortCodeAlphabet.getD k 'a' ∉ ['0', 'O', '1', 'l', 'I'] := by
  decide

/-- C5: every generated candidate has the requested length and draws only
ASCII letters and digits outside the ambiguous set 0 O 1 l I; when the
caller supplies no code (absent or blank), the serializer runs the
10-attempt loop and, if every attempt collides with the uniqueness check,
raises the ValidationError with the could-not-generate message (this error
belongs to the creation path: the redirect resolvers contain no call to the
allocator). -/
theorem C5_short_code_allocation
    (pick : Nat → Nat) (len : Nat) (gen : Nat → String) (taken : String → Bool)
    (hcollide : ∀ i, i < 10 → taken (gen i) = true) :
    ((generate_short_code pick len).length = len
      ∧ (∀ c, c ∈ (generate_short_code pick len).toList →
          (c.isAlpha = true ∨ c.isDigit = true)
          ∧ c ∉ ['0', 'O', '1', 'l', 'I']))
    ∧ ensure_short_code gen taken none
        = .error "Could not generate unique short code. Please try again."
    ∧ ensure_short_code gen taken (some "")
        = .error "Could not generate unique short code. Please try again." := by
  have halloc : alloc_from gen taken 0 10 = none :=
    alloc_from_exhausted gen taken 10 0 (fun j hj => by simpa using hcollide j hj)
  refine ⟨⟨?_, ?_⟩, ?_, ?_⟩
  · simp [generate_short_code, String.length]
  · intro c hc
    simp only [generate_short_code, String.toList, List.mem_map,
      List.mem_range] at hc
    obtain ⟨i, _, rfl⟩ := hc
    exact shortCodeAlphabet_sound (pick i % shortCodeAlphabet.length)
      (Nat.mod_lt _ (by decide))
  · simp [ensure_short_code, halloc]
  · simp [ensure_short_code, halloc]

/-- C5 witness: with a uniqueness check that reports every candidate as
taken, allocation with no provided code fails with the ValidationError. -/
theorem C5_short_code_allocation_witness :
    (∀ i, i < 10 → (fun _ : String => true) ((fun _ : Nat => "zzzzzz") i) = true)
    ∧ ensure_short_code (fun _ => "zzzzzz") (fun _ => true) none
        = .error "Could not generate unique short code. Please try again." :=
  ⟨fun _ _ => rfl,
    (C5_short_code_allocation (fun _ => 0) 6 (fun _ => "zzzzzz")
      (fun _ => true) (fun _ _ => rfl)).2.1⟩

/-- C6 counterexample: a non-numeric days parameter does not fall back to
the default 30; int() raises and the error propagates out of the view. -/
theorem C6_days_counterexample :
    get_days (some "abc") ≠ .ok 30 ∧ get_days (some "abc") = .error () := by
  decide

/-- C6 (amended): the days parameter defaults to 30 only when absent; a
present value is parsed by int(), a numeric value is used as given, and a
non-numeric value raises an unhandled error instead of defaulting; the
window start is now minus days times one day. -/
theorem C6_days_parameter (s t : String) (n now days : Int)
    (hs : pyIntOfString s = none) (ht : pyIntOfString t = some n) :
    get_days none = .ok 30
    ∧ get_days (some s) = .error ()
    ∧ get_days (some t) = .ok n
    ∧ start_date now days = now - days * 86400 := by
  refine ⟨rfl, ?_, ?_, rfl⟩
  · simp [get_days, hs]
  · simp [get_days, ht]

/-- C6 witness: abc fails to parse and propagates as an error; 7 parses
and is used as the window length. -/
theorem C6_days_parameter_witness :
    (pyIntOfString "abc" = none ∧ pyIntOfString "7" = some 7)
    ∧ (get_days none = .ok 30
      ∧ get_days (some "abc") = .error ()
      ∧ get_days (some "7") = .ok 7
      ∧ start_date 1000000 7 = 1000000 - 7 * 86400) :=
  ⟨⟨by decide, by decide⟩,
    C6_days_parameter "abc" "7" 7 1000000 7 (by decide) (by decide)⟩

/-- C7 counterexample: 192.168.1.1 is a private (RFC1918) address by the
specification wording, yet the code does issue the outbound lookup for it
(its short-circuit list is only the empty string and the three loopback
literals); the failing lookup is still swallowed to the none-none dict. -/
theorem C7_private_address_counterexample :
    isPrivateOrLoopbackSpec "192.168.1.1" = true
    ∧ (get_location_from_ip (fun _ => .exn) "192.168.1.1").2 = true
    ∧ (get_location_from_ip (fun _ => .exn) "192.168.1.1").1 = ⟨none, none⟩ := by
  decide

/-- C7 (amended): empty input and the three literal loopback addresses
short-circuit to the none-none dict with no network call; for any other
input one lookup is issued and every failure shape — a raised exception
(timeout, connection error, malformed body), a non-200 status, or a
non-success payload — is swallowed to the none-none dict, the function
never propagating an error; only a 200 response whose payload reports
success yields its city and country. -/
theorem C7_geolocation_fallback (fetch : String → GeoResult) (ip : String)
    (code : Nat) (b : GeoBody) :
    ((ip = "" ∨ ip = "127.0.0.1" ∨ ip = "localhost" ∨ ip = "::1") →
      get_location_from_ip fetch ip = (⟨none, none⟩, false))
    ∧ (fetch ip = .exn → (get_location_from_ip fetch ip).1 = ⟨none, none⟩)
    ∧ (fetch ip = .ok code none → (get_location_from_ip fetch ip).1 = ⟨none, none⟩)
    ∧ (fetch ip = .ok code (some b) → code ≠ 200 →
        (get_location_from_ip fetch ip).1 = ⟨none, none⟩)
    ∧ (fetch ip = .ok code (some b) → b.status ≠ some "success" →
        (get_location_from_ip fetch ip).1 = ⟨none, none⟩)
    ∧ (¬ (ip = "" ∨ ip = "127.0.0.1" ∨ ip = "localhost" ∨ ip = "::1") →
        fetch ip = .ok code (some b) → code = 200 → b.status = some "success" →
        (get_location_from_ip fetch ip).1 = ⟨b.city, b.country⟩) := by
  by_cases hg : ip = "" ∨ ip = "127.0.0.1" ∨ ip = "localhost" ∨ ip = "::1"
  · refine ⟨fun _ => ?_, fun _ => ?_, fun _ => ?_, fun _ _ => ?_, fun _ _ => ?_,
      fun hng => absurd hg hng⟩ <;> simp [get_location_from_ip, hg]
  · refine ⟨fun h => absurd h hg, fun hf => ?_, fun hf => ?_, fun hf hc => ?_,
      fun hf hs => ?_, fun _ hf hc hs => ?_⟩
    · simp [get_location_from_ip, hg, hf]
    · simp only [get_location_from_ip, if_neg hg, hf]
      split <;> rfl
    · simp [get_location_from_ip, hg, hf, hc]
    · by_cases h2 : code = 200 <;>
        simp [get_location_from_ip, hg, hf, h2, hs]
    · simp [get_location_from_ip, hg, hf, hc, hs]

/-- C7 witness: a public address with a successful lookup yields the
reported city and country; the hypotheses are discharged on concrete
data. -/
theorem C7_geolocation_fallback_witness :
    (¬ (("8.8.8.8" : String) = "" ∨ ("8.8.8.8" : String) = "127.0.0.1"
        ∨ ("8.8.8.8" : String) = "localhost" ∨ ("8.8.8.8" : String) = "::1"))
    ∧ (get_location_from_ip
        (fun _ => .ok 200 (some ⟨some "success", some "France", some "Paris"⟩))
        "8.8.8.8").1 = ⟨some "Paris", some "France"⟩ :=
  ⟨by decide,
    (C7_geolocation_fallback
      (fun _ => .ok 200 (some ⟨some "success", some "France", some "Paris"⟩))
      "8.8.8.8" 200 ⟨some "success", some "France", some "Paris"⟩).2.2.2.2.2
      (by decide) rfl rfl rfl⟩

/-- C8: the classifier always lands in the four-value range; the empty
string and a parser failure both give unknown (the except clause makes a
raised parse error indistinguishable from no signal); when signals
conflict the elif chain gives mobile precedence over tablet over desktop,
and a parse with no signal at all gives unknown. -/
theorem C8_device_classification (parse : String → UAParse) (ua : String) :
    (get_device_type parse ua = "mobile" ∨ get_device_type parse ua = "tablet"
      ∨ get_device_type parse ua = "desktop"
      ∨ get_device_type parse ua = "unknown")
    ∧ (ua = "" → get_device_type parse ua = "unknown")
    ∧ (parse ua = .failure → get_device_type parse ua = "unknown")
    ∧ (∀ t p, parse ua = .parsed true t p → ua ≠ "" →
        get_device_type parse ua = "mobile")
    ∧ (∀ p, parse ua = .parsed false true p → ua ≠ "" →
        get_device_type parse ua = "tablet")
    ∧ (parse ua = .parsed false false true → ua ≠ "" →
        get_device_type parse ua = "desktop")
    ∧ (parse ua = .parsed false false false →
        get_device_type parse ua = "unknown") := by
  by_cases hua : ua = ""
  · simp [get_device_type, hua]
  · cases hp : parse ua with
    | failure => simp [get_device_type, hua, hp]
    | parsed m t p =>
      cases m <;> cases t <;> cases p <;> simp [get_device_type, hua, hp]

/-- C8 witness: the empty user-agent string classifies as unknown, and a
conflicting mobile-and-tablet parse classifies as mobile. -/
theorem C8_device_classification_witness :
    get_device_type wParse "" = "unknown"
    ∧ get_device_type (fun _ => .parsed true true true) "Mozilla" = "mobile" :=
  ⟨(C8_device_classification wParse "").2.1 rfl,
    (C8_device_classification (fun _ => .parsed true true true) "Mozilla").2.2.2.1
      true true rfl (by decide)⟩

/-- C9: on a link with one click inside the window (timestamp 100, window
start 50) and one outside (timestamp 0), the linktree top_links ranks it
with click_count 2 — the Count is taken before the window filter, so
out-of-window events are counted — while the in-window count the claim and
the specification describe is 1; the tinyurl top_urls on the same shape of
data does report the in-window count 1. -/
theorem C9_top_ranking_window :
    top_links [bugLink] bugLinkStats 50 = [(bugLink, 2)]
    ∧ windowedCount bugLinkStats "L1" 50 = 1
    ∧ top_urls [bugUrl] bugUrlStats 50 = [(bugUrl, 1)]
    ∧ windowedCount bugUrlStats "u1" 50 = 1 := by
  decide

/-- C10 counterexample: the generator can emit the reserved word static
(it is six characters long, all drawn from the unambiguous alphabet, shown
by an explicit choice sequence); the serializer allocation path accepts a
generated code after only the uniqueness check, never calling
validate_short_code — which would have rejected it — so a stored
short_code equal to a reserved path is reachable. -/
theorem C10_generated_reserved_counterexample :
    generate_short_code staticPick 6 = "static"
    ∧ isReserved defaultReservedPaths "static" = true
    ∧ ensure_short_code (fun _ => generate_short_code staticPick 6)
        (fun _ => false) none = .ok "static"
    ∧ validate_short_code defaultReservedPaths "static" = .error () := by
  decide

/-- C10 (amended): a short_code supplied by the caller that matches a
reserved path case-insensitively is rejected with a ValidationError; the
auto-generation path, however, subjects its candidate only to the
uniqueness check and stores whatever the generator returns. -/
theorem C10_reserved_code_validation (reserved_paths : List String)
    (value : String) (gen : Nat → String) (taken : String → Bool)
    (hres : isReserved reserved_paths value = true)
    (h0 : taken (gen 0) = false) :
    validate_short_code reserved_paths value = .error ()
    ∧ ensure_short_code gen taken none = .ok (gen 0) := by
  constructor
  · simp [validate_short_code, hres]
  · simp [ensure_short_code, alloc_from, h0]

/-- C10 witness: the provided code ADMIN is rejected; a free generated
candidate is stored as returned by the generator. -/
theorem C10_reserved_code_validation_witness :
    (isReserved defaultReservedPaths "ADMIN" = true
      ∧ (fun _ : String => false) ((fun _ : Nat => "ab2cd3") 0) = false)
    ∧ (validate_short_code defaultReservedPaths "ADMIN" = .error ()
      ∧ ensure_short_code (fun _ => "ab2cd3") (fun _ => false) none
          = .ok "ab2cd3") :=
  ⟨⟨by decide, rfl⟩,
    C10_reserved_code_validation defaultReservedPaths "ADMIN"
      (fun _ => "ab2cd3") (fun _ => false) (by decide) rfl⟩

end Logmi
